import Mathlib

/-!
# RUI3 vibration detector: persisted settings, AT handlers and the cycle state machine

A shallow embedding of `src/app.h`, `src/custom_at.cpp` and `src/RAK1904_acc.cpp`.

Conventions of the embedding

* The firmware's globals, the user flash, the two vendor timers and the serial
  output are fields of one `State` record; every C function is a function on `State`.
* `uint32_t` and `uint8_t` values are natural numbers, reduced `% 2^32` and `% 256`
  at the places where the C code truncates.
* The vendor calls `api.system.flash.get/set` report success or failure.  Their
  outcome is an explicit Boolean argument of the embedded function, in call order.
  A failed write is modelled as leaving the flash content as it was.
* The vendor timer API is not part of the repository.  A timer is modelled by the
  list of expiries that are still pending (absolute due times in ms): `stop` clears
  the list, `start` adds one expiry `period` ms after the current time `now`.
* The state carries the clock `now` (ms).  `delay(100)` advances it by 100, and so
  does every `MYLOG`, whose expansion in app.h ends in `delay(100)` when `MY_DEBUG > 0`
  (the default of app.h is 1).  The text that `MYLOG` prints and the sensor register
  traffic are not part of the state; all other statements take no time.
-/

namespace VibrationDetector

/-! ## app.h -/

/-- Enumeration `status_val` of app.h. -/
inductive status_val where
  | wm_off
  | wm_started
  | wm_finished
  deriving DecidableEq, Repr

/-- Macro `SEND_FREQ_OFFSET` of app.h: send interval offset in flash. -/
def SEND_FREQ_OFFSET : Nat := 0x00000002

/-- Macro `TIMEOUT_OFFSET` of app.h: timeout offset in flash. -/
def TIMEOUT_OFFSET : Nat := 0x00000008

/-! ## Vendor API models -/

/-- Timer kinds given to `api.system.timer.create`. -/
inductive TimerMode where
  | RAK_TIMER_ONESHOT
  | RAK_TIMER_PERIODIC
  deriving DecidableEq, Repr

/-- One vendor timer: its kind (`none` as long as `api.system.timer.create` has not
been called for it), the due times of the expiries still pending and the period of
the last `start`. -/
structure Timer where
  mode : Option TimerMode
  pending : List Nat
  period : Nat
  deriving DecidableEq, Repr

/-- Model of `api.system.timer.create`: fixes the kind of the timer. -/
def timer_create (m : TimerMode) (t : Timer) : Timer :=
  { t with mode := some m }

/-- Model of `api.system.timer.start`: one more expiry is pending, `period` ms
after `now`.  Starting an already armed timer is modelled as adding an expiry, so
that a missing `stop` would show as a second pending expiry. -/
def timer_start (now period : Nat) (t : Timer) : Timer :=
  { t with pending := t.pending ++ [now + period], period := period }

/-- Model of `api.system.timer.stop`: no expiry stays pending. -/
def timer_stop (t : Timer) : Timer :=
  { t with pending := [] }

/-- Content of the user flash: one byte per address. -/
abbrev Flash := Nat → Nat

/-- Model of a successful `api.system.flash.get(offset, buf, len)`: the `len` bytes
from `offset`. -/
def flash_get (f : Flash) (offset len : Nat) : List Nat :=
  (List.range len).map (fun i => f (offset + i) % 256)

/-- Model of a successful `api.system.flash.set(offset, buf, len)`: the first `len`
bytes of `buf` replace the bytes from `offset`. -/
def flash_set (f : Flash) (offset : Nat) (buf : List Nat) (len : Nat) : Flash :=
  fun a => if offset ≤ a ∧ a < offset + len then buf.getD (a - offset) 0 % 256 else f a

/-- What the firmware writes to `Serial` outside debug logging. -/
inductive SerialOut where
  | print (s : String)
  | printf (fmt : String) (arg : Nat)
  deriving DecidableEq, Repr

/-- Result codes of an AT command handler. -/
inductive ATResult where
  | AT_OK
  | AT_PARAM_ERROR
  deriving DecidableEq, Repr

/-- Parameters of an AT command as the vendor parser passes them: `argc` is the
number of entries of `argv`; each entry holds the characters of a C string, that is
the characters before its terminating NUL. -/
structure stParam where
  argv : List String
  deriving DecidableEq, Repr

/-- Field `argc` of `stParam`. -/
def stParam.argc (p : stParam) : Nat := p.argv.length

/-- Expression `param->argv[0]`. -/
def stParam.argv0 (p : stParam) : String := p.argv.headD ""

/-! ## Program state -/

/-- Globals of the firmware together with the devices it drives. -/
structure State where
  /-- Time interval to send packets in milliseconds (custom_at.cpp). -/
  g_send_repeat_time : Nat
  /-- Timeout for machine inactive detection (custom_at.cpp). -/
  g_timeout : Nat
  /-- Global `last_status` declared in app.h. -/
  last_status : status_val
  /-- User flash content. -/
  flash : Flash
  /-- Periodic send timer. -/
  RAK_TIMER_0 : Timer
  /-- Inactivity timer, created by `init_rak1904`. -/
  RAK_TIMER_1 : Timer
  /-- Current time in ms. -/
  now : Nat
  /-- Output written to `Serial` by the AT handlers. -/
  serial : List SerialOut
  /-- Calls of `sensor_handler` so far, each with the status it found. -/
  sensor_calls : List status_val
  /-- Latched interrupt of the accelerometer (register INT1_SRC). -/
  int1_latched : Bool

/-- Modelled from the spec: `sensor_handler` is declared in app.h and defined in the
application sketch, which is not among the sources.  Following the spec (the state
machine calls an externally supplied handler on every status change) the call is
recorded with the status it sees; the status itself is not changed. -/
def sensor_handler (s : State) : State :=
  { s with sensor_calls := s.sensor_calls ++ [s.last_status] }

/-- Macro `MY_DEBUG` of app.h: 1 unless the build defines it. -/
def MY_DEBUG : Nat := 1

/-- Call `delay(ms)`. -/
def delay (ms : Nat) (s : State) : State :=
  { s with now := s.now + ms }

/-- Macro `MYLOG(tag, ...)` of app.h: with `MY_DEBUG > 0` it prints the tagged text
(not recorded) and then runs `delay(100)`; otherwise it expands to nothing. -/
def MYLOG (_tag _fmt : String) (s : State) : State :=
  if MY_DEBUG > 0 then delay 100 s else s

/-! ## custom_at.cpp -/

/-- Byte `(uint8_t)(v >> sh)`. -/
def byte_of (v sh : Nat) : Nat := (v >>> sh) % 256

/-- Function `save_at_setting` of custom_at.cpp.  `wr1` is the outcome of the
first `flash.set`, `wr2` the outcome of the retry (only consulted when the first
write failed).  The function returns true whatever the outcomes. -/
def save_at_setting (set_timeout : Bool) (wr1 wr2 : Bool) (s : State) : Bool × State :=
  let offset := if set_timeout then SEND_FREQ_OFFSET else TIMEOUT_OFFSET
  let v := if set_timeout then s.g_send_repeat_time else s.g_timeout
  let flash_value : List Nat :=
    [byte_of v 0, byte_of v 8, byte_of v 16, byte_of v 24, 0xAA] ++ List.replicate 11 0
  let s0 := MYLOG "AT_CMD" "Writing time 0X%02X 0X%02X 0X%02X 0X%02X to %d" s
  let s1 := if wr1 then { s0 with flash := flash_set s0.flash offset flash_value 5 } else s0
  let s2 :=
    if !wr1 then
      (if wr2 then { s1 with flash := flash_set s1.flash offset flash_value 5 } else s1)
    else s1
  (true, s2)

/-- Statement sequence `g = 0; g |= b[0] << 0; ... g |= b[3] << 24;` on a `uint32_t`.
Each byte is promoted to a 32-bit `int` before the shift and converted to `uint32_t`
for the `|=`; the value that reaches `g` is the shifted byte reduced `% 2^32`, which
for a byte below 256 is the shifted byte itself. -/
def assemble_u32 (flash_value : List Nat) : Nat :=
  let g0 := 0
  let g1 := (g0 ||| (flash_value.getD 0 0 <<< 0)) % 2 ^ 32
  let g2 := (g1 ||| (flash_value.getD 1 0 <<< 8)) % 2 ^ 32
  let g3 := (g2 ||| (flash_value.getD 2 0 <<< 16)) % 2 ^ 32
  (g3 ||| (flash_value.getD 3 0 <<< 24)) % 2 ^ 32

/-- Function `get_at_setting` of custom_at.cpp.  `rd` is the outcome of
`flash.get`; `wr1`, `wr2` are the outcomes of the writes of the nested
`save_at_setting` (only consulted on the invalid-marker path). -/
def get_at_setting (get_timeout : Bool) (rd wr1 wr2 : Bool) (s : State) : Bool × State :=
  let offset := if get_timeout then SEND_FREQ_OFFSET else TIMEOUT_OFFSET
  if !rd then (false, s)
  else
    let flash_value := flash_get s.flash offset 5
    if flash_value.getD 4 0 ≠ 0xAA then
      let s1 := if get_timeout then { s with g_send_repeat_time := 0 }
                else { s with g_timeout := 30000 }
      let s2 := (save_at_setting get_timeout wr1 wr2 s1).2
      (false, s2)
    else
      let s1 := MYLOG "AT_CMD" "Read send interval 0X%02X 0X%02X 0X%02X 0X%02X from %d" s
      if get_timeout then
        let s2 := { s1 with g_send_repeat_time := assemble_u32 flash_value }
        (true, MYLOG "AT_CMD" "Send interval found %ld" s2)
      else
        let s2 := { s1 with g_timeout := assemble_u32 flash_value }
        (true, MYLOG "AT_CMD" "Timeout found %ld" s2)

/-- C library `isdigit` on a character. -/
def isdigit (c : Char) : Bool := decide (48 ≤ c.toNat) && decide (c.toNat ≤ 57)

/-- Loop `for (i = 0; i < strlen(arg); i++) if (!isdigit(arg[i])) return AT_PARAM_ERROR;`
of both handlers: true when the loop runs to its end. -/
def digits_only : List Char → Bool
  | [] => true
  | c :: cs => if !isdigit c then false else digits_only cs

/-- Decimal value of the leading digits of a character list. -/
def decimal_value : Nat → List Char → Nat
  | acc, [] => acc
  | acc, c :: cs => if isdigit c then decimal_value (acc * 10 + (c.toNat - 48)) cs else acc

/-- C library `strtoul(arg, NULL, 10)` with a 32-bit `unsigned long`, on an argument
that starts with its digits (the handlers call it only after the digit loop):
the decimal value, clamped to `ULONG_MAX`. -/
def strtoul (arg : String) : Nat := min (decimal_value 0 arg.data) (2 ^ 32 - 1)

/-- Function `interval_send_handler` of custom_at.cpp. -/
def interval_send_handler (_port : Nat) (cmd : String) (param : stParam) (wr1 wr2 : Bool)
    (s : State) : ATResult × State :=
  if param.argc = 1 ∧ param.argv0 = "?" then
    (ATResult.AT_OK,
      { s with serial := s.serial ++
          [SerialOut.print cmd, SerialOut.printf "=%ld\r\n" (s.g_send_repeat_time / 1000)] })
  else if param.argc = 1 then
    if !digits_only param.argv0.data then (ATResult.AT_PARAM_ERROR, s)
    else
      let new_send_freq := strtoul param.argv0
      let s1 := { s with g_send_repeat_time := (new_send_freq * 1000) % 2 ^ 32 }
      let s2 := { s1 with RAK_TIMER_0 := timer_stop s1.RAK_TIMER_0 }
      let s3 :=
        if s2.g_send_repeat_time ≠ 0 then
          { s2 with RAK_TIMER_0 := timer_start s2.now s2.g_send_repeat_time s2.RAK_TIMER_0 }
        else s2
      let s4 := (save_at_setting true wr1 wr2 s3).2
      (ATResult.AT_OK, s4)
  else (ATResult.AT_PARAM_ERROR, s)

/-- Function `timeout_handler` of custom_at.cpp. -/
def timeout_handler (_port : Nat) (cmd : String) (param : stParam) (wr1 wr2 : Bool)
    (s : State) : ATResult × State :=
  if param.argc = 1 ∧ param.argv0 = "?" then
    (ATResult.AT_OK,
      { s with serial := s.serial ++
          [SerialOut.print cmd, SerialOut.printf "=%ld\r\n" (s.g_timeout / 1000)] })
  else if param.argc = 1 then
    if !digits_only param.argv0.data then (ATResult.AT_PARAM_ERROR, s)
    else
      let new_timeout := strtoul param.argv0
      let s1 := { s with g_timeout := (new_timeout * 1000) % 2 ^ 32 }
      let s2 := { s1 with RAK_TIMER_1 := timer_stop s1.RAK_TIMER_1 }
      let s3 := (save_at_setting false wr1 wr2 s2).2
      (ATResult.AT_OK, s3)
  else (ATResult.AT_PARAM_ERROR, s)

/-! ## RAK1904_acc.cpp -/

/-- Function `machine_timeout` of RAK1904_acc.cpp: timer callback of RAK_TIMER_1. -/
def machine_timeout (s : State) : State :=
  let s1 := MYLOG "ACC" "Timeout" s
  sensor_handler { s1 with last_status := status_val.wm_finished }

/-- Function `clear_int_rak1904` of RAK1904_acc.cpp: reading INT1_SRC clears the
latched interrupt. -/
def clear_int_rak1904 (s : State) : State :=
  { s with int1_latched := false }

/-- Function `read_rak1904` of RAK1904_acc.cpp: logs the three axes. -/
def read_rak1904 (s : State) : State :=
  MYLOG "ACC" "x %f y %f z %f g" s

/-- Function `int_callback_rak1904` of RAK1904_acc.cpp: the motion interrupt. -/
def int_callback_rak1904 (s : State) : State :=
  let s0 := read_rak1904 (MYLOG "ACC" "IRQ" s)
  let s1 :=
    if s0.last_status = status_val.wm_off then
      let a := { s0 with last_status := status_val.wm_started }
      let b := { a with RAK_TIMER_1 := timer_start a.now a.g_timeout a.RAK_TIMER_1 }
      sensor_handler b
    else if s0.last_status = status_val.wm_started then
      let a := { s0 with RAK_TIMER_1 := timer_stop s0.RAK_TIMER_1 }
      let b := { a with RAK_TIMER_1 := timer_start a.now a.g_timeout a.RAK_TIMER_1 }
      MYLOG "ACC" "Timeout reset" b
    else s0
  clear_int_rak1904 s1

/-- Function `init_rak1904` of RAK1904_acc.cpp, as far as the state is concerned:
`imu_ok` is the outcome of `myIMU.begin()`; the register configuration of the
sensor is not part of the state, its two `delay(100)` are. -/
def init_rak1904 (imu_ok rd wr1 wr2 : Bool) (s : State) : Bool × State :=
  if !imu_ok then (false, s)
  else
    let s0 := delay 100 (delay 100 s)
    let s1 := clear_int_rak1904 s0
    let s2 := { s1 with RAK_TIMER_1 := timer_create TimerMode.RAK_TIMER_ONESHOT s1.RAK_TIMER_1 }
    let s3 := (get_at_setting false rd wr1 wr2 s2).2
    (true, s3)

/-! ## Environment steps -/

/-- Nothing happens until the clock reaches `t`. -/
def at_time (t : Nat) (s : State) : State := { s with now := max s.now t }

/-- The timer service fires the oldest pending expiry of RAK_TIMER_1: the clock is
at its due time (or later), a one-shot timer is left without that expiry, a periodic
one is re-armed, and the callback `machine_timeout` registered by `init_rak1904`
runs.  There is no step when nothing is pending or the timer was never created. -/
def timer1_expire (s : State) : Option State :=
  match s.RAK_TIMER_1.pending with
  | [] => none
  | d :: rest =>
    let t := s.RAK_TIMER_1
    match t.mode with
    | none => none
    | some TimerMode.RAK_TIMER_ONESHOT =>
      some (machine_timeout
        { s with now := max s.now d, RAK_TIMER_1 := { t with pending := rest } })
    | some TimerMode.RAK_TIMER_PERIODIC =>
      some (machine_timeout
        { s with now := max s.now d
                 RAK_TIMER_1 := { t with pending := rest ++ [d + t.period] } })

/-- Global of the key selected by the flag of `get_at_setting` / `save_at_setting`. -/
def key_global (key : Bool) (s : State) : Nat :=
  if key then s.g_send_repeat_time else s.g_timeout

/-- Flash offset of the key selected by the flag. -/
def key_offset (key : Bool) : Nat :=
  if key then SEND_FREQ_OFFSET else TIMEOUT_OFFSET

/-- Assignment to the global of the key selected by the flag. -/
def set_key_global (key : Bool) (v : Nat) (s : State) : State :=
  if key then { s with g_send_repeat_time := v } else { s with g_timeout := v }

/-- State right after reset: the initialisers of custom_at.cpp, an empty flash
(erased bytes read 0xFF), no timer created yet and idle devices. -/
def boot_state : State :=
  { g_send_repeat_time := 60000
    g_timeout := 30000
    last_status := status_val.wm_off
    flash := fun _ => 0xFF
    RAK_TIMER_0 := { mode := none, pending := [], period := 0 }
    RAK_TIMER_1 := { mode := none, pending := [], period := 0 }
    now := 0
    serial := []
    sensor_calls := []
    int1_latched := false }

/-- Boot state in which a cycle has been reported as finished. -/
def finished_state : State :=
  { boot_state with last_status := status_val.wm_finished }

/-- State after a successful `init_rak1904` on the boot state (read and first write
succeed), with the inactivity timeout then set to 5000 ms and the clock read from
this moment on. -/
def ready_5000 : State :=
  { (init_rak1904 true true true false boot_state).2 with g_timeout := 5000, now := 0 }

/-- Boot state after `save_at_setting(true)` with a successful first write: the flash
holds the valid record of the initial report interval 60000 ms. -/
def saved_60000 : State :=
  (save_at_setting true true false boot_state).2

/-! ## Auxiliary facts -/

theorem byte_of_lt (v sh : Nat) : byte_of v sh < 256 :=
  Nat.mod_lt _ (by norm_num)

theorem or_shiftLeft_of_lt (acc b i : Nat) (h : acc < 2 ^ i) :
    acc ||| b <<< i = 2 ^ i * b + acc := by
  rw [Nat.shiftLeft_eq, Nat.or_comm, Nat.mul_comm]
  exact (Nat.mul_add_lt_is_or h b).symm

theorem assemble_u32_bytes (b0 b1 b2 b3 : Nat) (rest : List Nat)
    (h0 : b0 < 256) (h1 : b1 < 256) (h2 : b2 < 256) (h3 : b3 < 256) :
    assemble_u32 (b0 :: b1 :: b2 :: b3 :: rest)
      = b0 + 256 * b1 + 65536 * b2 + 16777216 * b3 := by
  have e1 : b0 ||| b1 <<< 8 = 2 ^ 8 * b1 + b0 := or_shiftLeft_of_lt _ _ _ (by omega)
  have e2 : (2 ^ 8 * b1 + b0) ||| b2 <<< 16 = 2 ^ 16 * b2 + (2 ^ 8 * b1 + b0) :=
    or_shiftLeft_of_lt _ _ _ (by omega)
  have e3 : (2 ^ 16 * b2 + (2 ^ 8 * b1 + b0)) ||| b3 <<< 24
      = 2 ^ 24 * b3 + (2 ^ 16 * b2 + (2 ^ 8 * b1 + b0)) :=
    or_shiftLeft_of_lt _ _ _ (by omega)
  have m0 : b0 % 2 ^ 32 = b0 := Nat.mod_eq_of_lt (by omega)
  have m1 : (2 ^ 8 * b1 + b0) % 2 ^ 32 = 2 ^ 8 * b1 + b0 := Nat.mod_eq_of_lt (by omega)
  have m2 : (2 ^ 16 * b2 + (2 ^ 8 * b1 + b0)) % 2 ^ 32 = 2 ^ 16 * b2 + (2 ^ 8 * b1 + b0) :=
    Nat.mod_eq_of_lt (by omega)
  have m3 : (2 ^ 24 * b3 + (2 ^ 16 * b2 + (2 ^ 8 * b1 + b0))) % 2 ^ 32
      = 2 ^ 24 * b3 + (2 ^ 16 * b2 + (2 ^ 8 * b1 + b0)) := Nat.mod_eq_of_lt (by omega)
  simp only [assemble_u32, List.getD_cons_zero, List.getD_cons_succ, Nat.zero_or,
    Nat.shiftLeft_zero, m0, e1, m1, e2, m2, e3, m3]
  omega

theorem le_bytes_value (v : Nat) (hv : v < 2 ^ 32) :
    byte_of v 0 + 256 * byte_of v 8 + 65536 * byte_of v 16 + 16777216 * byte_of v 24 = v := by
  simp only [byte_of, Nat.shiftRight_eq_div_pow]
  omega

theorem flash_get_flash_set_self (f : Flash) (off : Nat) (buf : List Nat) (len : Nat) :
    flash_get (flash_set f off buf len) off len
      = (List.range len).map (fun i => buf.getD i 0 % 256) := by
  unfold flash_get flash_set
  apply List.map_congr_left
  intro i hi
  have hi2 : i < len := List.mem_range.mp hi
  simp [hi2]

theorem flash_set_outside (f : Flash) (off : Nat) (buf : List Nat) (len a : Nat)
    (h : a < off ∨ off + len ≤ a) : flash_set f off buf len a = f a := by
  unfold flash_set
  have : ¬ (off ≤ a ∧ a < off + len) := by omega
  simp [this]


theorem MYLOG_eq (tag fmt : String) (s : State) :
    MYLOG tag fmt s = { s with now := s.now + 100 } := by
  simp [MYLOG, MY_DEBUG, delay]

theorem save_at_setting_written (key wr1 wr2 : Bool) (s : State) (hw : wr1 = true ∨ wr2 = true) :
    (save_at_setting key wr1 wr2 s).2 =
      { s with
        now := s.now + 100
        flash := flash_set s.flash (key_offset key)
                  ([byte_of (key_global key s) 0, byte_of (key_global key s) 8,
                    byte_of (key_global key s) 16, byte_of (key_global key s) 24, 0xAA]
                    ++ List.replicate 11 0) 5 } := by
  cases key <;> cases wr1 <;> cases wr2 <;>
    simp_all [save_at_setting, key_offset, key_global, MYLOG_eq]

theorem save_at_setting_failed (key : Bool) (s : State) :
    (save_at_setting key false false s).2 = { s with now := s.now + 100 } := by
  simp [save_at_setting, MYLOG_eq]

theorem flash_get_record (f : Flash) (off b0 b1 b2 b3 b4 : Nat) (rest : List Nat)
    (h0 : b0 < 256) (h1 : b1 < 256) (h2 : b2 < 256) (h3 : b3 < 256) (h4 : b4 < 256) :
    flash_get (flash_set f off (b0 :: b1 :: b2 :: b3 :: b4 :: rest) 5) off 5
      = [b0, b1, b2, b3, b4] := by
  rw [flash_get_flash_set_self]
  have hr : List.range 5 = [0, 1, 2, 3, 4] := by decide
  rw [hr]
  simp [Nat.mod_eq_of_lt, h0, h1, h2, h3, h4]

theorem get_at_setting_marker_ok (key wr1 wr2 : Bool) (s : State)
    (hm : (flash_get s.flash (key_offset key) 5).getD 4 0 = 0xAA) :
    get_at_setting key true wr1 wr2 s
      = (true,
          { set_key_global key (assemble_u32 (flash_get s.flash (key_offset key) 5)) s with
            now := s.now + 100 + 100 }) := by
  cases key <;> simp_all [get_at_setting, key_offset, set_key_global, MYLOG_eq]

theorem get_at_setting_valid (key wr1 wr2 : Bool) (s : State) (b0 b1 b2 b3 : Nat)
    (h0 : b0 < 256) (h1 : b1 < 256) (h2 : b2 < 256) (h3 : b3 < 256)
    (hf : flash_get s.flash (key_offset key) 5 = [b0, b1, b2, b3, 0xAA]) :
    get_at_setting key true wr1 wr2 s
      = (true,
          { set_key_global key (b0 + 256 * b1 + 65536 * b2 + 16777216 * b3) s with
            now := s.now + 100 + 100 }) := by
  have ha := assemble_u32_bytes b0 b1 b2 b3 [0xAA] h0 h1 h2 h3
  have hm : (flash_get s.flash (key_offset key) 5).getD 4 0 = 0xAA := by
    rw [hf]
    rfl
  rw [get_at_setting_marker_ok key wr1 wr2 s hm, hf, ha]

theorem get_at_setting_invalid (key wr1 wr2 : Bool) (s : State)
    (hm : (flash_get s.flash (key_offset key) 5).getD 4 0 ≠ 0xAA) :
    get_at_setting key true wr1 wr2 s
      = (false, (save_at_setting key wr1 wr2
          (set_key_global key (if key then 0 else 30000) s)).2) := by
  cases key <;> simp_all [get_at_setting, key_offset, set_key_global]

theorem key_global_set_key_global (key : Bool) (v : Nat) (s : State) :
    key_global key (set_key_global key v s) = v := by
  cases key <;> simp [key_global, set_key_global]

theorem set_key_global_flash (key : Bool) (v : Nat) (s : State) :
    (set_key_global key v s).flash = s.flash := by
  cases key <;> simp [set_key_global]

/-! ## Persisted configuration -/

/-- C1. Round trip of the persisted configuration: for every value `v < 2^32` and each
key (flag true: report interval at offset 2, flag false: inactivity timeout at
offset 8), when the write (first attempt or retry) and the read succeed, setting the
key's global to `v`, then `save_at_setting`, then `get_at_setting` returns true and
leaves the global equal to `v`; the record in flash is the four bytes of `v`, least
significant first, followed by the marker 0xAA.  The value comes back from the
flash: `get_at_setting` returns true and sets the global to `v` in every state that
holds the saved flash content, whatever its globals are. -/
theorem save_then_get_round_trip (key : Bool) (v : Nat) (s : State)
    (wr1 wr2 rd wr3 wr4 : Bool)
    (hv : v < 2 ^ 32) (hw : wr1 = true ∨ wr2 = true) (hr : rd = true) :
    let saved := save_at_setting key wr1 wr2 (set_key_global key v s)
    let loaded := get_at_setting key rd wr3 wr4 saved.2
    saved.1 = true ∧
    flash_get saved.2.flash (if key then 2 else 8) 5
      = [v % 256, v / 2 ^ 8 % 256, v / 2 ^ 16 % 256, v / 2 ^ 24 % 256, 0xAA] ∧
    loaded.1 = true ∧
    key_global key loaded.2 = v ∧
    loaded.2.flash = saved.2.flash ∧
    (∀ t : State, t.flash = saved.2.flash →
      (get_at_setting key rd wr3 wr4 t).1 = true ∧
      key_global key (get_at_setting key rd wr3 wr4 t).2 = v ∧
      (get_at_setting key rd wr3 wr4 t).2.flash = t.flash) := by
  intro saved loaded
  subst hr
  have hs : saved.2 = _ := save_at_setting_written key wr1 wr2 (set_key_global key v s) hw
  rw [key_global_set_key_global] at hs
  have hrec : flash_get saved.2.flash (key_offset key) 5
      = [byte_of v 0, byte_of v 8, byte_of v 16, byte_of v 24, 0xAA] := by
    rw [hs]
    exact flash_get_record _ _ _ _ _ _ _ _ (byte_of_lt _ _) (byte_of_lt _ _)
      (byte_of_lt _ _) (byte_of_lt _ _) (by norm_num)
  have hload : ∀ t : State, t.flash = saved.2.flash →
      (get_at_setting key true wr3 wr4 t).1 = true ∧
      key_global key (get_at_setting key true wr3 wr4 t).2 = v ∧
      (get_at_setting key true wr3 wr4 t).2.flash = t.flash := by
    intro t ht
    have hl := get_at_setting_valid key wr3 wr4 t _ _ _ _ (byte_of_lt _ _) (byte_of_lt _ _)
      (byte_of_lt _ _) (byte_of_lt _ _) (ht ▸ hrec)
    rw [le_bytes_value v hv] at hl
    rw [hl]
    refine ⟨rfl, ?_, ?_⟩
    · exact key_global_set_key_global key v t
    · exact set_key_global_flash key v t
  have hoff : key_offset key = if key then 2 else 8 := by
    cases key <;> rfl
  refine ⟨rfl, ?_, (hload saved.2 rfl).1, (hload saved.2 rfl).2.1, (hload saved.2 rfl).2.2,
    hload⟩
  rw [← hoff, hrec]
  simp [byte_of, Nat.shiftRight_eq_div_pow]

/-- Witness of C1: 12345 ms saved as report interval (first write fails, the retry
succeeds), then loaded into a state whose globals are back at their initial values
60000 and 30000 and whose flash is the saved one. -/
theorem save_then_get_round_trip_witness :
    boot_state.g_send_repeat_time = 60000 ∧
    flash_get (save_at_setting true false true (set_key_global true 12345 boot_state)).2.flash 2 5
      = [57, 48, 0, 0, 0xAA] ∧
    (get_at_setting true true false false
      { boot_state with
        flash := (save_at_setting true false true
          (set_key_global true 12345 boot_state)).2.flash }).1 = true ∧
    (get_at_setting true true false false
      { boot_state with
        flash := (save_at_setting true false true
          (set_key_global true 12345 boot_state)).2.flash }).2.g_send_repeat_time = 12345 := by
  have h := save_then_get_round_trip true 12345 boot_state false true true false false
    (by norm_num) (Or.inr rfl) rfl
  have ht := h.2.2.2.2.2
    { boot_state with
      flash := (save_at_setting true false true
        (set_key_global true 12345 boot_state)).2.flash } rfl
  exact ⟨rfl, h.2.1, ht.1, ht.2.1⟩

/-- C2. Self-healing load: for each key, when the marker byte of the key's record is
not 0xAA and the read and the write (first attempt or retry) succeed,
`get_at_setting` sets the key's global to the default (0 for the report interval,
30000 for the inactivity timeout) and writes that default with the marker 0xAA;
a second `get_at_setting` whose read succeeds returns true, leaves the global at the
same default and does not write again. -/
theorem get_at_setting_self_heals (key : Bool) (s : State) (rd wr1 wr2 rd2 wr3 wr4 : Bool)
    (hm : (flash_get s.flash (if key then 2 else 8) 5).getD 4 0 ≠ 0xAA)
    (hr : rd = true) (hw : wr1 = true ∨ wr2 = true) (hr2 : rd2 = true) :
    let d := if key then 0 else 30000
    let first := get_at_setting key rd wr1 wr2 s
    let second := get_at_setting key rd2 wr3 wr4 first.2
    key_global key first.2 = d ∧
    flash_get first.2.flash (if key then 2 else 8) 5
      = [d % 256, d / 2 ^ 8 % 256, d / 2 ^ 16 % 256, d / 2 ^ 24 % 256, 0xAA] ∧
    second.1 = true ∧
    key_global key second.2 = d ∧
    second.2.flash = first.2.flash := by
  intro d first second
  subst hr hr2
  have hoff : key_offset key = if key then 2 else 8 := by
    cases key <;> rfl
  rw [← hoff] at hm ⊢
  have hd : d < 2 ^ 32 := by
    cases key <;> simp [d]
  have hf : first = _ := get_at_setting_invalid key wr1 wr2 s hm
  have hg : key_global key (set_key_global key d s) = d :=
    key_global_set_key_global key d s
  have hfs : first.2 = (save_at_setting key wr1 wr2 (set_key_global key d s)).2 := by
    rw [hf]
  have hs := hfs.trans (save_at_setting_written key wr1 wr2 (set_key_global key d s) hw)
  rw [hg] at hs
  have hrec : flash_get first.2.flash (key_offset key) 5
      = [byte_of d 0, byte_of d 8, byte_of d 16, byte_of d 24, 0xAA] := by
    rw [hs]
    exact flash_get_record _ _ _ _ _ _ _ _ (byte_of_lt _ _) (byte_of_lt _ _)
      (byte_of_lt _ _) (byte_of_lt _ _) (by norm_num)
  have hl : second = _ :=
    get_at_setting_valid key wr3 wr4 first.2 _ _ _ _ (byte_of_lt _ _) (byte_of_lt _ _)
      (byte_of_lt _ _) (byte_of_lt _ _) hrec
  rw [le_bytes_value d hd] at hl
  refine ⟨?_, ?_, ?_, ?_, ?_⟩
  · rw [hs]
    cases key <;> simp [key_global, set_key_global]
  · rw [hrec]
    simp [byte_of, Nat.shiftRight_eq_div_pow]
  · rw [hl]
  · rw [hl]
    exact key_global_set_key_global key d first.2
  · rw [hl]
    exact set_key_global_flash key d first.2

/-- Witness of C2: the inactivity timeout on the erased flash of the boot state. -/
theorem get_at_setting_self_heals_witness :
    (flash_get boot_state.flash 8 5).getD 4 0 ≠ 0xAA ∧
    (get_at_setting false true true false boot_state).2.g_timeout = 30000 ∧
    flash_get (get_at_setting false true true false boot_state).2.flash 8 5
      = [48, 117, 0, 0, 0xAA] ∧
    (get_at_setting false true false false
      (get_at_setting false true true false boot_state).2).1 = true := by
  have h := get_at_setting_self_heals false boot_state true true false true false false
    (by decide) rfl (Or.inl rfl) rfl
  exact ⟨by decide, h.1, h.2.1, h.2.2.1⟩

theorem get_at_setting_observed (key rd wr1 wr2 : Bool) (s : State) (r : List Nat) (d : Nat)
    (hr : r = flash_get s.flash (key_offset key) 5) (hd : d = if key then 0 else 30000) :
    (get_at_setting key rd wr1 wr2 s).1 = (rd && decide (r.getD 4 0 = 0xAA)) ∧
    key_global key (get_at_setting key rd wr1 wr2 s).2
      = (if rd = false then key_global key s
         else if r.getD 4 0 ≠ 0xAA then d else assemble_u32 r) ∧
    flash_get (get_at_setting key rd wr1 wr2 s).2.flash (key_offset key) 5
      = (if rd = true ∧ r.getD 4 0 ≠ 0xAA ∧ (wr1 = true ∨ wr2 = true)
         then [byte_of d 0, byte_of d 8, byte_of d 16, byte_of d 24, 0xAA] else r) := by
  have hg : key_global key (set_key_global key d s) = d := key_global_set_key_global key d s
  have hfl : ∀ v, (set_key_global key v s).flash = s.flash :=
    fun v => set_key_global_flash key v s
  rcases Bool.eq_false_or_eq_true rd with hrd | hrd
  · subst hrd
    by_cases hm : r.getD 4 0 = 0xAA
    · rw [get_at_setting_marker_ok key wr1 wr2 s (hr ▸ hm), ← hr]
      refine ⟨?_, ?_, ?_⟩
      · rw [hm]
        rfl
      · rw [if_neg (by decide), if_neg (not_not.mpr hm)]
        cases key <;> simp [key_global, set_key_global]
      · rw [if_neg (fun h => h.2.1 hm)]
        show flash_get (set_key_global key (assemble_u32 r) s).flash (key_offset key) 5 = r
        rw [hfl, ← hr]
    · rw [get_at_setting_invalid key wr1 wr2 s (hr ▸ hm), ← hd]
      by_cases hw : wr1 = true ∨ wr2 = true
      · rw [save_at_setting_written key wr1 wr2 _ hw, hg]
        refine ⟨?_, ?_, ?_⟩
        · show false = (true && decide (r.getD 4 0 = 0xAA))
          rw [decide_eq_false hm]
          rfl
        · rw [if_neg (by decide), if_pos hm]
          cases key <;> simp [key_global, set_key_global]
        · rw [if_pos ⟨rfl, hm, hw⟩]
          exact flash_get_record _ _ _ _ _ _ _ _ (byte_of_lt _ _) (byte_of_lt _ _)
            (byte_of_lt _ _) (byte_of_lt _ _) (by norm_num)
      · have h1 : wr1 = false := by
          cases wr1 <;> simp_all
        have h2 : wr2 = false := by
          cases wr2 <;> simp_all
        subst h1 h2
        rw [save_at_setting_failed]
        refine ⟨?_, ?_, ?_⟩
        · show false = (true && decide (r.getD 4 0 = 0xAA))
          rw [decide_eq_false hm]
          rfl
        · rw [if_neg (by decide), if_pos hm]
          exact hg
        · rw [if_neg (fun h => hw h.2.2)]
          show flash_get (set_key_global key d s).flash (key_offset key) 5 = r
          rw [hfl, ← hr]
  · subst hrd
    have hgs : get_at_setting key false wr1 wr2 s = (false, s) := by
      simp [get_at_setting]
    rw [hgs]
    refine ⟨rfl, ?_, ?_⟩
    · rw [if_pos rfl]
    · rw [if_neg (fun h => Bool.noConfusion h.1), ← hr]

/-- C8. The two settings persist independently: the offsets are 2 and 8, the two
5-byte records do not share an address, `save_at_setting` of one key changes no byte
outside that key's record (so the data bytes and the marker of the other key are
kept), and a following `get_at_setting` of the other key returns the same value,
leaves the other key's global with the same value and the other key's record with
the same bytes as it does without the save. -/
theorem settings_persist_independently (key : Bool) (s : State) (wr1 wr2 rd wr3 wr4 : Bool) :
    let other := !key
    let saved := (save_at_setting key wr1 wr2 s).2
    SEND_FREQ_OFFSET = 2 ∧ TIMEOUT_OFFSET = 8 ∧
    (∀ i j, i < 5 → j < 5 → key_offset key + i ≠ key_offset other + j) ∧
    (∀ a, (a < key_offset key ∨ key_offset key + 5 ≤ a) → saved.flash a = s.flash a) ∧
    (∀ j, j < 5 → saved.flash (key_offset other + j) = s.flash (key_offset other + j)) ∧
    (get_at_setting other rd wr3 wr4 saved).1 = (get_at_setting other rd wr3 wr4 s).1 ∧
    key_global other (get_at_setting other rd wr3 wr4 saved).2
      = key_global other (get_at_setting other rd wr3 wr4 s).2 ∧
    flash_get (get_at_setting other rd wr3 wr4 saved).2.flash (key_offset other) 5
      = flash_get (get_at_setting other rd wr3 wr4 s).2.flash (key_offset other) 5 := by
  intro other saved
  have hout : ∀ a, (a < key_offset key ∨ key_offset key + 5 ≤ a) →
      saved.flash a = s.flash a := by
    intro a ha
    rcases Bool.eq_false_or_eq_true wr1 with h1 | h1
    · simp only [saved]
      rw [save_at_setting_written key wr1 wr2 s (Or.inl h1)]
      exact flash_set_outside _ _ _ _ _ ha
    · rcases Bool.eq_false_or_eq_true wr2 with h2 | h2
      · simp only [saved]
        rw [save_at_setting_written key wr1 wr2 s (Or.inr h2)]
        exact flash_set_outside _ _ _ _ _ ha
      · simp only [saved]
        rw [h1, h2, save_at_setting_failed]
  have hdis : ∀ i j, i < 5 → j < 5 → key_offset key + i ≠ key_offset other + j := by
    intro i j hi hj
    cases key <;> simp [other, key_offset, SEND_FREQ_OFFSET, TIMEOUT_OFFSET] <;> omega
  have hoth : ∀ j, j < 5 → saved.flash (key_offset other + j) = s.flash (key_offset other + j) := by
    intro j hj
    apply hout
    cases key <;> simp [other, key_offset, SEND_FREQ_OFFSET, TIMEOUT_OFFSET] <;> omega
  have hget : flash_get saved.flash (key_offset other) 5 = flash_get s.flash (key_offset other) 5 := by
    unfold flash_get
    apply List.map_congr_left
    intro j hj
    rw [hoth j (List.mem_range.mp hj)]
  have hglob : saved.g_send_repeat_time = s.g_send_repeat_time ∧ saved.g_timeout = s.g_timeout := by
    cases key <;> cases wr1 <;> cases wr2 <;> simp [saved, save_at_setting, MYLOG_eq]
  have hko : key_global other saved = key_global other s := by
    cases key <;> simp [other, key_global, hglob.1, hglob.2]
  have h1 := get_at_setting_observed other rd wr3 wr4 saved _ _ hget.symm rfl
  have h2 := get_at_setting_observed other rd wr3 wr4 s _ _ rfl rfl
  rw [hko] at h1
  refine ⟨rfl, rfl, hdis, hout, hoth, ?_, ?_, ?_⟩
  · rw [h1.1, h2.1]
  · rw [h1.2.1, h2.2.1]
  · rw [h1.2.2, h2.2.2]


/-- Witness of C8: saving the report interval on a flash that holds a valid timeout
record of 5000 ms, then loading the timeout. -/
theorem settings_persist_independently_witness :
    (∀ j, j < 5 →
      (save_at_setting true true false
        (save_at_setting false true false (set_key_global false 5000 boot_state)).2).2.flash
          (key_offset false + j)
        = (save_at_setting false true false (set_key_global false 5000 boot_state)).2.flash
          (key_offset false + j)) ∧
    key_global false (get_at_setting false true false false
      (save_at_setting true true false
        (save_at_setting false true false (set_key_global false 5000 boot_state)).2).2).2
      = key_global false (get_at_setting false true false false
          (save_at_setting false true false (set_key_global false 5000 boot_state)).2).2 :=
  have h := settings_persist_independently true
    (save_at_setting false true false (set_key_global false 5000 boot_state)).2
    true false true false false
  ⟨h.2.2.2.2.1, h.2.2.2.2.2.2.1⟩

/-! ## AT command handlers -/

theorem digits_only_eq_true_iff (cs : List Char) :
    digits_only cs = true ↔ ∀ c ∈ cs, isdigit c = true := by
  induction cs with
  | nil => simp [digits_only]
  | cons c cs ih =>
    cases hc : isdigit c <;> simp [digits_only, hc, ih]

theorem isdigit_eq_false_of_range (c : Char) (h : c.toNat < 48 ∨ 57 < c.toNat) :
    isdigit c = false := by
  unfold isdigit
  rcases h with h | h
  · have : ¬ 48 ≤ c.toNat := by omega
    simp [this]
  · have : ¬ c.toNat ≤ 57 := by omega
    simp [this]

/-- C3. Rejected arguments change nothing: a call with `argc ≠ 1`, and a call with one
argument other than "?" that contains a character outside '0'..'9', make both
`interval_send_handler` and `timeout_handler` return AT_PARAM_ERROR with the state
(globals, flash, both timers and everything else) exactly as before. -/
theorem handlers_reject_bad_arguments (port : Nat) (cmd : String) (param : stParam)
    (wr1 wr2 : Bool) (s : State)
    (h : param.argc ≠ 1 ∨
      (param.argc = 1 ∧ param.argv0 ≠ "?" ∧
        ∃ c ∈ param.argv0.data, c.toNat < 48 ∨ 57 < c.toNat)) :
    interval_send_handler port cmd param wr1 wr2 s = (ATResult.AT_PARAM_ERROR, s) ∧
    timeout_handler port cmd param wr1 wr2 s = (ATResult.AT_PARAM_ERROR, s) := by
  rcases h with h | ⟨h1, hq, c, hc, hr⟩
  · simp [interval_send_handler, timeout_handler, h]
  · have hd : digits_only param.argv0.data = false := by
      rcases Bool.eq_false_or_eq_true (digits_only param.argv0.data) with ht | hf
      · have := (digits_only_eq_true_iff _).mp ht c hc
        rw [isdigit_eq_false_of_range c hr] at this
        exact absurd this (by decide)
      · exact hf
    simp [interval_send_handler, timeout_handler, h1, hq, hd]

/-- Witness of C3: the argument "12x" on the boot state. -/
theorem handlers_reject_bad_arguments_witness :
    interval_send_handler 0 "SENDINT" ⟨["12x"]⟩ true true boot_state
      = (ATResult.AT_PARAM_ERROR, boot_state) ∧
    timeout_handler 0 "TOUT" ⟨["12x"]⟩ true true boot_state
      = (ATResult.AT_PARAM_ERROR, boot_state) :=
  ⟨(handlers_reject_bad_arguments 0 "SENDINT" ⟨["12x"]⟩ true true boot_state
      (Or.inr ⟨rfl, by decide, 'x', by decide, Or.inr (by decide)⟩)).1,
   (handlers_reject_bad_arguments 0 "TOUT" ⟨["12x"]⟩ true true boot_state
      (Or.inr ⟨rfl, by decide, 'x', by decide, Or.inr (by decide)⟩)).2⟩


theorem ne_question_of_digits_only (arg : String) (h : digits_only arg.data = true) :
    arg ≠ "?" := by
  intro hq
  subst hq
  exact absurd h (by decide)

theorem strtoul_eq_of_lt (arg : String) (n : Nat) (hn : decimal_value 0 arg.data = n)
    (hlt : n < 2 ^ 32) : strtoul arg = n := by
  unfold strtoul
  rw [hn]
  omega

theorem interval_send_handler_write (port : Nat) (cmd arg : String) (wr1 wr2 : Bool)
    (s : State) (h : digits_only arg.data = true) :
    interval_send_handler port cmd ⟨[arg]⟩ wr1 wr2 s
      = (ATResult.AT_OK,
          (save_at_setting true wr1 wr2
            { s with
              g_send_repeat_time := strtoul arg * 1000 % 2 ^ 32
              RAK_TIMER_0 :=
                if strtoul arg * 1000 % 2 ^ 32 ≠ 0 then
                  timer_start s.now (strtoul arg * 1000 % 2 ^ 32) (timer_stop s.RAK_TIMER_0)
                else timer_stop s.RAK_TIMER_0 }).2) := by
  have hq := ne_question_of_digits_only arg h
  by_cases hz : strtoul arg * 1000 % 4294967296 = 0 <;>
    simp [interval_send_handler, stParam.argc, stParam.argv0, hq, h, hz]

theorem timeout_handler_write (port : Nat) (cmd arg : String) (wr1 wr2 : Bool)
    (s : State) (h : digits_only arg.data = true) :
    timeout_handler port cmd ⟨[arg]⟩ wr1 wr2 s
      = (ATResult.AT_OK,
          (save_at_setting false wr1 wr2
            { s with
              g_timeout := strtoul arg * 1000 % 2 ^ 32
              RAK_TIMER_1 := timer_stop s.RAK_TIMER_1 }).2) := by
  have hq := ne_question_of_digits_only arg h
  simp [timeout_handler, stParam.argc, stParam.argv0, hq, h]

theorem save_at_setting_fields (key wr1 wr2 : Bool) (s : State) :
    (save_at_setting key wr1 wr2 s).2.g_send_repeat_time = s.g_send_repeat_time ∧
    (save_at_setting key wr1 wr2 s).2.g_timeout = s.g_timeout ∧
    (save_at_setting key wr1 wr2 s).2.last_status = s.last_status ∧
    (save_at_setting key wr1 wr2 s).2.RAK_TIMER_0 = s.RAK_TIMER_0 ∧
    (save_at_setting key wr1 wr2 s).2.RAK_TIMER_1 = s.RAK_TIMER_1 ∧
    (save_at_setting key wr1 wr2 s).2.now = s.now + 100 ∧
    (save_at_setting key wr1 wr2 s).2.serial = s.serial ∧
    (save_at_setting key wr1 wr2 s).2.sensor_calls = s.sensor_calls := by
  cases key <;> cases wr1 <;> cases wr2 <;> simp [save_at_setting, MYLOG_eq]

/-- Counterexample to C9: the flash holds the valid record of 60000 ms; the write "0"
with both flash writes failing returns AT_OK and sets `g_send_repeat_time` to 0, but
the record in flash is still the one of 60000 ms, not the value 0, and the next
`get_at_setting` brings 60000 back. -/
theorem interval_zero_not_persisted_counterexample :
    (interval_send_handler 0 "SENDINT" ⟨["0"]⟩ false false saved_60000).1 = ATResult.AT_OK ∧
    (interval_send_handler 0 "SENDINT" ⟨["0"]⟩ false false saved_60000).2.g_send_repeat_time
      = 0 ∧
    flash_get (interval_send_handler 0 "SENDINT" ⟨["0"]⟩ false false saved_60000).2.flash 2 5
      ≠ [0, 0, 0, 0, 0xAA] ∧
    flash_get (interval_send_handler 0 "SENDINT" ⟨["0"]⟩ false false saved_60000).2.flash 2 5
      = [96, 234, 0, 0, 0xAA] ∧
    (get_at_setting true true false false
      (interval_send_handler 0 "SENDINT" ⟨["0"]⟩ false false saved_60000).2).2.g_send_repeat_time
      = 60000 := by
  decide

/-- C9 (amended). Writing 0 to the report interval disables periodic telemetry: in every
state `interval_send_handler` with the single argument "0" returns AT_OK, sets
`g_send_repeat_time` to 0 and stops RAK_TIMER_0 without starting it again; when the
flash write succeeds (first attempt or retry) the record at offset 2 is the value 0
with the marker 0xAA.  For an all-digit argument that yields a non-zero
`g_send_repeat_time`, RAK_TIMER_0 is stopped and started again with that period. -/
theorem interval_zero_disables_reporting (port : Nat) (cmd : String) (wr1 wr2 : Bool)
    (s : State) :
    let r := interval_send_handler port cmd ⟨["0"]⟩ wr1 wr2 s
    r.1 = ATResult.AT_OK ∧
    r.2.g_send_repeat_time = 0 ∧
    r.2.RAK_TIMER_0 = timer_stop s.RAK_TIMER_0 ∧
    r.2.RAK_TIMER_0.pending = [] ∧
    ((wr1 = true ∨ wr2 = true) → flash_get r.2.flash 2 5 = [0, 0, 0, 0, 0xAA]) ∧
    (∀ arg : String, digits_only arg.data = true →
      (interval_send_handler port cmd ⟨[arg]⟩ wr1 wr2 s).2.g_send_repeat_time ≠ 0 →
      (interval_send_handler port cmd ⟨[arg]⟩ wr1 wr2 s).1 = ATResult.AT_OK ∧
      (interval_send_handler port cmd ⟨[arg]⟩ wr1 wr2 s).2.RAK_TIMER_0
        = timer_start s.now
            (interval_send_handler port cmd ⟨[arg]⟩ wr1 wr2 s).2.g_send_repeat_time
            (timer_stop s.RAK_TIMER_0) ∧
      (interval_send_handler port cmd ⟨[arg]⟩ wr1 wr2 s).2.RAK_TIMER_0.pending
        = [s.now + (interval_send_handler port cmd ⟨[arg]⟩ wr1 wr2 s).2.g_send_repeat_time] ∧
      (interval_send_handler port cmd ⟨[arg]⟩ wr1 wr2 s).2.RAK_TIMER_0.period
        = (interval_send_handler port cmd ⟨[arg]⟩ wr1 wr2 s).2.g_send_repeat_time) := by
  intro r
  have hz : strtoul "0" * 1000 % 2 ^ 32 = 0 := by decide
  have hr : r = _ := interval_send_handler_write port cmd "0" wr1 wr2 s (by decide)
  rw [hz] at hr
  simp only [ne_eq, not_true_eq_false, if_false] at hr
  refine ⟨?_, ?_, ?_, ?_, ?_, ?_⟩
  · rw [hr]
  · rw [hr, (save_at_setting_fields _ _ _ _).1]
  · rw [hr, (save_at_setting_fields _ _ _ _).2.2.2.1]
  · rw [hr, (save_at_setting_fields _ _ _ _).2.2.2.1]
    rfl
  · intro hw
    rw [hr, save_at_setting_written true wr1 wr2 _ hw]
    have hrec := flash_get_record s.flash 2 0 0 0 0 0xAA (List.replicate 11 0) (by norm_num)
      (by norm_num) (by norm_num) (by norm_num) (by norm_num)
    simpa [key_global, key_offset, SEND_FREQ_OFFSET, byte_of] using hrec
  · intro arg hd hne
    rw [interval_send_handler_write port cmd arg wr1 wr2 s hd] at hne ⊢
    rw [(save_at_setting_fields _ _ _ _).1] at hne
    simp only [(save_at_setting_fields _ _ _ _).1, (save_at_setting_fields _ _ _ _).2.2.2.1]
    have hne2 : ¬ strtoul arg * 1000 % 4294967296 = 0 := by
      simpa using hne
    simp [hne2, timer_start, timer_stop]

/-- Witness of the amended C9: "0" and "60" on the boot state with a successful write. -/
theorem interval_zero_disables_reporting_witness :
    (interval_send_handler 0 "SENDINT" ⟨["0"]⟩ true false boot_state).2.g_send_repeat_time = 0 ∧
    (interval_send_handler 0 "SENDINT" ⟨["0"]⟩ true false boot_state).2.RAK_TIMER_0.pending = [] ∧
    flash_get (interval_send_handler 0 "SENDINT" ⟨["0"]⟩ true false boot_state).2.flash 2 5
      = [0, 0, 0, 0, 0xAA] ∧
    (interval_send_handler 0 "SENDINT" ⟨["60"]⟩ true false boot_state).2.RAK_TIMER_0.pending
      = [60000] :=
  have h := interval_zero_disables_reporting 0 "SENDINT" true false boot_state
  ⟨h.2.1, h.2.2.2.1, h.2.2.2.2.1 (Or.inl rfl),
    (h.2.2.2.2.2 "60" (by decide) (by decide)).2.2.1⟩


theorem interval_send_handler_read (port : Nat) (cmd : String) (wr1 wr2 : Bool) (s : State) :
    interval_send_handler port cmd ⟨["?"]⟩ wr1 wr2 s
      = (ATResult.AT_OK,
          { s with
            serial := s.serial ++
              [SerialOut.print cmd,
               SerialOut.printf "=%ld\r\n" (s.g_send_repeat_time / 1000)] }) := by
  simp [interval_send_handler, stParam.argc, stParam.argv0]

theorem timeout_handler_read (port : Nat) (cmd : String) (wr1 wr2 : Bool) (s : State) :
    timeout_handler port cmd ⟨["?"]⟩ wr1 wr2 s
      = (ATResult.AT_OK,
          { s with
            serial := s.serial ++
              [SerialOut.print cmd, SerialOut.printf "=%ld\r\n" (s.g_timeout / 1000)] }) := by
  simp [timeout_handler, stParam.argc, stParam.argv0]

/-- C10. The seconds-to-milliseconds conversion of the write commands is 32-bit modular:
for an all-digit argument of decimal value `n < 2^32`, `interval_send_handler` stores
`g_send_repeat_time = n * 1000 % 2^32` and `timeout_handler` stores
`g_timeout = n * 1000 % 2^32`; the stored value equals `n * 1000` exactly when
`n ≤ 4294967`, and the read form "?" issued after the write prints the stored value
divided by 1000, which equals `n` exactly when `n ≤ 4294967`.  For the argument
"536870912" the stored report interval is 0 and RAK_TIMER_0 is left stopped. -/
theorem seconds_to_ms_is_modular (port : Nat) (cmd arg : String) (wr1 wr2 wr3 wr4 : Bool)
    (s : State) (n : Nat)
    (hd : digits_only arg.data = true) (hn : decimal_value 0 arg.data = n)
    (hlt : n < 2 ^ 32) :
    let wi := (interval_send_handler port cmd ⟨[arg]⟩ wr1 wr2 s).2
    let wt := (timeout_handler port cmd ⟨[arg]⟩ wr1 wr2 s).2
    wi.g_send_repeat_time = n * 1000 % 2 ^ 32 ∧
    wt.g_timeout = n * 1000 % 2 ^ 32 ∧
    (wi.g_send_repeat_time = n * 1000 ↔ n ≤ 4294967) ∧
    (wt.g_timeout = n * 1000 ↔ n ≤ 4294967) ∧
    (interval_send_handler port cmd ⟨["?"]⟩ wr3 wr4 wi).2.serial
      = wi.serial ++ [SerialOut.print cmd,
          SerialOut.printf "=%ld\r\n" (wi.g_send_repeat_time / 1000)] ∧
    (timeout_handler port cmd ⟨["?"]⟩ wr3 wr4 wt).2.serial
      = wt.serial ++ [SerialOut.print cmd,
          SerialOut.printf "=%ld\r\n" (wt.g_timeout / 1000)] ∧
    (wi.g_send_repeat_time / 1000 = n ↔ n ≤ 4294967) ∧
    (wt.g_timeout / 1000 = n ↔ n ≤ 4294967) ∧
    (interval_send_handler port cmd ⟨["536870912"]⟩ wr1 wr2 s).2.g_send_repeat_time = 0 ∧
    (interval_send_handler port cmd ⟨["536870912"]⟩ wr1 wr2 s).2.RAK_TIMER_0.pending = [] := by
  intro wi wt
  have hs : strtoul arg = n := strtoul_eq_of_lt arg n hn hlt
  have hi : wi.g_send_repeat_time = n * 1000 % 2 ^ 32 := by
    simp only [wi]
    rw [interval_send_handler_write port cmd arg wr1 wr2 s hd,
      (save_at_setting_fields _ _ _ _).1, hs]
  have ht : wt.g_timeout = n * 1000 % 2 ^ 32 := by
    simp only [wt]
    rw [timeout_handler_write port cmd arg wr1 wr2 s hd,
      (save_at_setting_fields _ _ _ _).2.1, hs]
  have hbig := interval_send_handler_write port cmd "536870912" wr1 wr2 s (by decide)
  have hz : strtoul "536870912" * 1000 % 2 ^ 32 = 0 := by decide
  rw [hz] at hbig
  simp only [ne_eq, not_true_eq_false, if_false] at hbig
  refine ⟨hi, ht, ?_, ?_, ?_, ?_, ?_, ?_, ?_, ?_⟩
  · rw [hi]
    omega
  · rw [ht]
    omega
  · rw [interval_send_handler_read]
  · rw [timeout_handler_read]
  · rw [hi]
    omega
  · rw [ht]
    omega
  · rw [hbig, (save_at_setting_fields _ _ _ _).1]
  · rw [hbig, (save_at_setting_fields _ _ _ _).2.2.2.1]
    rfl

/-- Witness of C10: the arguments "60" (exact) and "4294968" (wraps) on the boot state. -/
theorem seconds_to_ms_is_modular_witness :
    digits_only "4294968".data = true ∧ decimal_value 0 "4294968".data = 4294968 ∧
    (interval_send_handler 0 "SENDINT" ⟨["4294968"]⟩ true false boot_state).2.g_send_repeat_time
      = 704 ∧
    (timeout_handler 0 "SENDINT" ⟨["4294968"]⟩ true false boot_state).2.g_timeout = 704 ∧
    (interval_send_handler 0 "SENDINT" ⟨["536870912"]⟩ true false
      boot_state).2.g_send_repeat_time = 0 :=
  have h := seconds_to_ms_is_modular 0 "SENDINT" "4294968" true false true false boot_state
    4294968 (by decide) (by decide) (by norm_num)
  ⟨by decide, by decide, h.1, h.2.1, h.2.2.2.2.2.2.2.2.1⟩



/-! ## Cycle state machine -/

theorem get_at_setting_RAK_TIMER_1 (key rd wr1 wr2 : Bool) (s : State) :
    (get_at_setting key rd wr1 wr2 s).2.RAK_TIMER_1 = s.RAK_TIMER_1 ∧
    (get_at_setting key rd wr1 wr2 s).2.last_status = s.last_status := by
  rcases Bool.eq_false_or_eq_true rd with hrd | hrd
  · subst hrd
    by_cases hm : (flash_get s.flash (key_offset key) 5).getD 4 0 = 0xAA
    · rw [get_at_setting_marker_ok key wr1 wr2 s hm]
      cases key <;> simp [set_key_global]
    · rw [get_at_setting_invalid key wr1 wr2 s hm,
        (save_at_setting_fields _ _ _ _).2.2.2.2.1, (save_at_setting_fields _ _ _ _).2.2.1]
      cases key <;> simp [set_key_global]
  · subst hrd
    simp [get_at_setting]

theorem init_rak1904_creates_oneshot (rd wr1 wr2 : Bool) (s : State) :
    (init_rak1904 true rd wr1 wr2 s).1 = true ∧
    (init_rak1904 true rd wr1 wr2 s).2.RAK_TIMER_1.mode = some TimerMode.RAK_TIMER_ONESHOT ∧
    (init_rak1904 true rd wr1 wr2 s).2.RAK_TIMER_1.pending = s.RAK_TIMER_1.pending ∧
    (init_rak1904 true rd wr1 wr2 s).2.last_status = s.last_status := by
  simp [init_rak1904, get_at_setting_RAK_TIMER_1, timer_create, clear_int_rak1904, delay]

/-- Counterexample to C4: timeout 5000 ms, motion events at t = 0 and t = 4000.  Before
the second event the status is `wm_started`; after it the single pending expiry is
due at t = 9200, not at t = 9000 = 4000 + 5000, because the two `MYLOG` calls at the
head of the callback spend 200 ms before the timer is restarted. -/
theorem motion_while_running_due_time_counterexample :
    (at_time 4000 (int_callback_rak1904 (at_time 0 ready_5000))).last_status
      = status_val.wm_started ∧
    (at_time 4000 (int_callback_rak1904 (at_time 0 ready_5000))).now = 4000 ∧
    (at_time 4000 (int_callback_rak1904 (at_time 0 ready_5000))).g_timeout = 5000 ∧
    (int_callback_rak1904
      (at_time 4000 (int_callback_rak1904 (at_time 0 ready_5000)))).RAK_TIMER_1.pending
      ≠ [4000 + 5000] ∧
    (int_callback_rak1904
      (at_time 4000 (int_callback_rak1904 (at_time 0 ready_5000)))).RAK_TIMER_1.pending
      = [9200] := by
  decide

/-- C4 (amended). A motion event while the cycle is running only resets the deadline: in
every state with `last_status = wm_started`, `int_callback_rak1904` keeps
`last_status = wm_started`, records no call of `sensor_handler`, and leaves RAK_TIMER_1
stopped and started again, so that exactly one expiry is pending, whatever was
pending before; it is due `g_timeout` ms after the restart, which takes place 200 ms
after the callback is entered (two `MYLOG` delays of 100 ms come first). -/
theorem motion_while_running_rearms (s : State)
    (h : s.last_status = status_val.wm_started) :
    (int_callback_rak1904 s).last_status = status_val.wm_started ∧
    (int_callback_rak1904 s).sensor_calls = s.sensor_calls ∧
    (int_callback_rak1904 s).RAK_TIMER_1
      = timer_start (s.now + 200) s.g_timeout (timer_stop s.RAK_TIMER_1) ∧
    (int_callback_rak1904 s).RAK_TIMER_1.pending = [s.now + 200 + s.g_timeout] ∧
    (int_callback_rak1904 s).g_timeout = s.g_timeout := by
  simp [int_callback_rak1904, read_rak1904, clear_int_rak1904, h, timer_start, timer_stop,
    MYLOG_eq, Nat.add_assoc]

/-- Witness of the amended C4: timeout 5000 ms, motion events at t = 0 and t = 4000; after
the second event a single expiry is pending at t = 9200, and when it fires the status
becomes `wm_finished`. -/
theorem motion_while_running_rearms_witness :
    (at_time 4000 (int_callback_rak1904 (at_time 0 ready_5000))).last_status
      = status_val.wm_started ∧
    (int_callback_rak1904
      (at_time 4000 (int_callback_rak1904 (at_time 0 ready_5000)))).RAK_TIMER_1.pending
      = [9200] ∧
    (int_callback_rak1904
      (at_time 4000 (int_callback_rak1904 (at_time 0 ready_5000)))).sensor_calls
      = [status_val.wm_started] ∧
    (timer1_expire (int_callback_rak1904
      (at_time 4000 (int_callback_rak1904 (at_time 0 ready_5000))))).map
        (fun s => (s.last_status, s.RAK_TIMER_1.pending, s.sensor_calls))
      = some (status_val.wm_finished, [],
          [status_val.wm_started, status_val.wm_finished]) :=
  have h := motion_while_running_rearms
    (at_time 4000 (int_callback_rak1904 (at_time 0 ready_5000))) (by decide)
  ⟨by decide, h.2.2.2.1, h.2.1, by decide⟩

/-- C5. Basic cycle: from `last_status = wm_off` with no expiry of RAK_TIMER_1 pending,
the timer having the kind that `init_rak1904` gave it, that kind is one-shot, and one
motion event sets `last_status` to `wm_started`, starts RAK_TIMER_1 once with the
period `g_timeout` and calls `sensor_handler` once (with `wm_started`).  The expiry
of the timer then exists, runs `machine_timeout`, sets `last_status` to
`wm_finished`, calls `sensor_handler` exactly once more (with `wm_finished`) and
leaves no expiry pending. -/
theorem basic_cycle_trace (s s0 : State) (rd wr1 wr2 : Bool)
    (hoff : s.last_status = status_val.wm_off)
    (hidle : s.RAK_TIMER_1.pending = [])
    (hinit : s.RAK_TIMER_1.mode = (init_rak1904 true rd wr1 wr2 s0).2.RAK_TIMER_1.mode) :
    s.RAK_TIMER_1.mode = some TimerMode.RAK_TIMER_ONESHOT ∧
    (int_callback_rak1904 s).last_status = status_val.wm_started ∧
    (int_callback_rak1904 s).RAK_TIMER_1 = timer_start (s.now + 200) s.g_timeout s.RAK_TIMER_1 ∧
    (int_callback_rak1904 s).RAK_TIMER_1.mode = some TimerMode.RAK_TIMER_ONESHOT ∧
    (int_callback_rak1904 s).RAK_TIMER_1.period = s.g_timeout ∧
    (int_callback_rak1904 s).RAK_TIMER_1.pending = [s.now + 200 + s.g_timeout] ∧
    (int_callback_rak1904 s).sensor_calls = s.sensor_calls ++ [status_val.wm_started] ∧
    ∃ fin, timer1_expire (int_callback_rak1904 s) = some fin ∧
      fin = machine_timeout
        { int_callback_rak1904 s with
          now := s.now + 200 + s.g_timeout
          RAK_TIMER_1 := { (int_callback_rak1904 s).RAK_TIMER_1 with pending := [] } } ∧
      fin.last_status = status_val.wm_finished ∧
      fin.sensor_calls
        = s.sensor_calls ++ [status_val.wm_started] ++ [status_val.wm_finished] ∧
      fin.RAK_TIMER_1.pending = [] := by
  have hone : s.RAK_TIMER_1.mode = some TimerMode.RAK_TIMER_ONESHOT :=
    hinit.trans (init_rak1904_creates_oneshot rd wr1 wr2 s0).2.1
  simp [int_callback_rak1904, read_rak1904, clear_int_rak1904, hoff, hidle, hone, timer_start,
    timer1_expire, machine_timeout, sensor_handler, MYLOG_eq, Nat.add_assoc]

/-- Witness of C5: the state left by a successful `init_rak1904` on the boot state, whose
RAK_TIMER_1 was not created before. -/
theorem basic_cycle_trace_witness :
    boot_state.RAK_TIMER_1.mode = none ∧
    (init_rak1904 true true true false boot_state).2.RAK_TIMER_1.mode
      = some TimerMode.RAK_TIMER_ONESHOT ∧
    (int_callback_rak1904 (init_rak1904 true true true false boot_state).2).RAK_TIMER_1.period
      = 30000 ∧
    ∃ fin, timer1_expire (int_callback_rak1904 (init_rak1904 true true true false boot_state).2)
        = some fin ∧
      fin.last_status = status_val.wm_finished ∧
      fin.sensor_calls = [status_val.wm_started, status_val.wm_finished] ∧
      fin.RAK_TIMER_1.pending = [] :=
  have h := basic_cycle_trace (init_rak1904 true true true false boot_state).2 boot_state
    true true false (by decide) (by decide) rfl
  ⟨rfl, h.1, h.2.2.2.2.1,
    h.2.2.2.2.2.2.2.elim (fun fin hf => ⟨fin, hf.1, hf.2.2.1, hf.2.2.2.1, hf.2.2.2.2⟩)⟩

/-- Counterexample to C6: in the boot state with `last_status = wm_finished` and
`g_timeout = 30000`, a motion event leaves the status at `wm_finished` (not
`wm_started`), arms no expiry of RAK_TIMER_1 and records no call of `sensor_handler`. -/
theorem motion_when_finished_counterexample :
    finished_state.last_status = status_val.wm_finished ∧
    (int_callback_rak1904 finished_state).last_status ≠ status_val.wm_started ∧
    (int_callback_rak1904 finished_state).last_status = status_val.wm_finished ∧
    (int_callback_rak1904 finished_state).RAK_TIMER_1.pending
      ≠ [finished_state.now + finished_state.g_timeout] ∧
    (int_callback_rak1904 finished_state).RAK_TIMER_1.pending = [] ∧
    (int_callback_rak1904 finished_state).sensor_calls = finished_state.sensor_calls := by
  decide

/-- C6 (amended). A motion event in the finished state is ignored by the state machine:
in every state with `last_status = wm_finished`, `int_callback_rak1904` only clears the
latched interrupt (after the 200 ms of its two `MYLOG` delays); `last_status` stays
`wm_finished`, RAK_TIMER_1 is not touched and `sensor_handler` is not called. -/
theorem motion_when_finished_is_ignored (s : State)
    (h : s.last_status = status_val.wm_finished) :
    int_callback_rak1904 s = { s with int1_latched := false, now := s.now + 200 } ∧
    (int_callback_rak1904 s).last_status = status_val.wm_finished ∧
    (int_callback_rak1904 s).RAK_TIMER_1 = s.RAK_TIMER_1 ∧
    (int_callback_rak1904 s).sensor_calls = s.sensor_calls := by
  simp [int_callback_rak1904, read_rak1904, clear_int_rak1904, h, MYLOG_eq, Nat.add_assoc]

/-- Witness of the amended C6 on the finished boot state. -/
theorem motion_when_finished_is_ignored_witness :
    (int_callback_rak1904 finished_state).last_status = status_val.wm_finished ∧
    (int_callback_rak1904 finished_state).RAK_TIMER_1 = finished_state.RAK_TIMER_1 ∧
    (int_callback_rak1904 finished_state).sensor_calls = finished_state.sensor_calls :=
  (motion_when_finished_is_ignored finished_state rfl).2

/-- Counterexample to C7: in the boot state (`last_status = wm_off`) the timer callback
changes the status to `wm_finished` and calls `sensor_handler`; in the finished state
it keeps the status but still calls `sensor_handler`. -/
theorem timeout_outside_running_counterexample :
    boot_state.last_status = status_val.wm_off ∧
    (machine_timeout boot_state).last_status ≠ boot_state.last_status ∧
    (machine_timeout boot_state).sensor_calls ≠ boot_state.sensor_calls ∧
    finished_state.last_status = status_val.wm_finished ∧
    (machine_timeout finished_state).sensor_calls ≠ finished_state.sensor_calls := by
  decide

/-- C7 (amended). The timer callback is not guarded by the status: in every state
`machine_timeout` sets `last_status` to `wm_finished` and calls `sensor_handler`
exactly once (with the status `wm_finished`); the settings, the flash and both timers
are left as they were. -/
theorem machine_timeout_always_finishes (s : State) :
    (machine_timeout s).last_status = status_val.wm_finished ∧
    (machine_timeout s).sensor_calls = s.sensor_calls ++ [status_val.wm_finished] ∧
    (machine_timeout s).g_send_repeat_time = s.g_send_repeat_time ∧
    (machine_timeout s).g_timeout = s.g_timeout ∧
    (machine_timeout s).flash = s.flash ∧
    (machine_timeout s).RAK_TIMER_0 = s.RAK_TIMER_0 ∧
    (machine_timeout s).RAK_TIMER_1 = s.RAK_TIMER_1 := by
  simp [machine_timeout, sensor_handler, MYLOG_eq]

end VibrationDetector
